import Mathlib

/-!
Shallow embedding of the supply-chain domain-model layer
(currency.js, money.js, supplier-id.js, product-id.js, uuid.js, email.js,
supplier.js) and proofs about its validation and invariant discipline.

JavaScript numbers are modelled as exact rationals plus the non-finite
markers NaN / Infinity / -Infinity; `toFixed(2)` is modelled as exact
half-up rounding to 2 decimal places on rationals (the spec leaves the
ambient platform rounding rule abstract).  JavaScript runtime values that
can flow into the constructors and setters are modelled by the inductive
`Value` universe; `instanceof`, truthiness and strict-equality checks are
embedded as total functions on that universe.  A thrown ValidationError is
modelled as `Except.error`.
-/

namespace SupplyChain

/-- The single error kind of the core (errors.js). -/
structure ValidationError where
  message : String
  deriving DecidableEq, Repr

/-- Exact half-up rounding to 2 decimal places, the model of
`Number(x.toFixed(2))` for the non-negative amounts the code stores. -/
def round2 (q : ℚ) : ℚ := (⌊q * 100 + 1/2⌋ : ℤ) / 100

/-- A constructed Currency's stored state (currency.js private field `#code`). -/
structure Currency where
  code : String
  deriving DecidableEq, Repr

/-- A constructed Money's stored state (money.js private fields `#amount`,
`#currency`). -/
structure Money where
  amount : ℚ
  currency : Currency
  deriving DecidableEq, Repr

/-- A constructed SupplierId's stored state (private field `#value`). -/
structure SupplierId where
  value : String
  deriving DecidableEq, Repr

/-- A constructed ProductId's stored state (private field `#value`). -/
structure ProductId where
  value : String
  deriving DecidableEq, Repr

/-- A JavaScript number: an exact finite rational or a non-finite marker. -/
inductive JSNum where
  | num (q : ℚ)
  | nan
  | inf
  | negInf
  deriving DecidableEq, Repr

/-- The universe of JavaScript runtime values that can reach the embedded
constructors and setters: primitives, the domain's constructed objects, and
`obj` for any other plain object. -/
inductive Value where
  | null
  | undefined
  | bool (b : Bool)
  | number (n : JSNum)
  | string (s : String)
  | currencyV (c : Currency)
  | moneyV (m : Money)
  | supplierIdV (i : SupplierId)
  | productIdV (p : ProductId)
  | obj
  deriving DecidableEq, Repr

/-- JavaScript truthiness of a value. -/
def Value.truthy : Value → Bool
  | .null => false
  | .undefined => false
  | .bool b => b
  | .number (.num q) => q != 0
  | .number .nan => false
  | .number .inf => true
  | .number .negInf => true
  | .string s => !s.isEmpty
  | .currencyV _ => true
  | .moneyV _ => true
  | .supplierIdV _ => true
  | .productIdV _ => true
  | .obj => true

/-- The JavaScript prefix operator `!` applied to a value: it yields a
boolean. -/
def jsNot (v : Value) : Value := .bool (!v.truthy)

/-- The check `v instanceof Money`. -/
def isMoneyV : Value → Bool
  | .moneyV _ => true
  | _ => false

/-- The check `v instanceof Currency`. -/
def isCurrencyV : Value → Bool
  | .currencyV _ => true
  | _ => false

/-- The check `v instanceof SupplierId`. -/
def isSupplierIdV : Value → Bool
  | .supplierIdV _ => true
  | _ => false

/-- The check `v instanceof ProductId`. -/
def isProductIdV : Value → Bool
  | .productIdV _ => true
  | _ => false

/-- The check `Number.isFinite(v)` (no coercion: only finite numbers qualify). -/
def jsIsFinite : Value → Bool
  | .number (.num _) => true
  | _ => false

/-- The fixed list of valid currency codes (currency.js `#VALID_CODES`). -/
def Currency.VALID_CODES : List String := ["USD", "EUR", "GBP", "JPY"]

/-- The Currency constructor (currency.js lines 22-26): rejects any code
outside the fixed enumerated set, stores the code otherwise. -/
def Currency.make (codev : Value) : Except ValidationError Currency :=
  match codev with
  | .string s =>
      if s ∈ Currency.VALID_CODES then .ok ⟨s⟩
      else .error ⟨"Invalid currency code: " ++ s⟩
  | _ => .error ⟨"Invalid currency code"⟩

/-- The method `Currency.equals` as called on an argument known to be a Currency
(currency.js line 42: the `instanceof` conjunct holds, leaving code
equality). -/
def Currency.equalsC (a b : Currency) : Bool := a.code == b.code

/-- The Money constructor (money.js lines 86-93): amount must be a finite,
non-negative number and currency a Currency instance; the stored amount is
the argument rounded to 2 decimal places. -/
def Money.make (amountv currencyv : Value) : Except ValidationError Money :=
  match amountv with
  | .number (.num q) =>
      if q < 0 then .error ⟨"Amount must be a positive number"⟩
      else
        match currencyv with
        | .currencyV c => .ok ⟨round2 q, c⟩
        | _ => .error ⟨"Currency must be an instance of Currency"⟩
  | _ => .error ⟨"Amount must be a positive number"⟩

/-- The method `Money.add` (money.js lines 117-121): requires `other` to be a Money
with an equal currency, then builds a new Money from the summed amounts
through the constructor. -/
def Money.add (m : Money) (other : Value) : Except ValidationError Money :=
  match other with
  | .moneyV o =>
      if Currency.equalsC m.currency o.currency then
        Money.make (.number (.num (m.amount + o.amount))) (.currencyV m.currency)
      else .error ⟨"Can only add Money with the same currency"⟩
  | _ => .error ⟨"Can only add Money with the same currency"⟩

/-- The method `Money.multiply` (money.js lines 129-133): requires a finite,
non-negative multiplier, then builds a new Money from the product through
the constructor. -/
def Money.multiply (m : Money) (multiplier : Value) : Except ValidationError Money :=
  match multiplier with
  | .number (.num k) =>
      if k < 0 then .error ⟨"Multiplier must be a positive number"⟩
      else Money.make (.number (.num (m.amount * k))) (.currencyV m.currency)
  | _ => .error ⟨"Multiplier must be a positive number"⟩

/-- The method `Money.equals` (money.js line 141) on an argument known to be a Money. -/
def Money.equalsM (a b : Money) : Bool :=
  a.amount == b.amount && Currency.equalsC a.currency b.currency

/-- The USD currency as stored by a successful `new Currency('USD')`. -/
def USD : Currency := ⟨"USD"⟩

/-- The EUR currency as stored by a successful `new Currency('EUR')`. -/
def EUR : Currency := ⟨"EUR"⟩

/-- A hexadecimal digit character for a nibble value: digits for 0-9,
lowercase letters for 10-15. -/
def hexChar (n : Fin 16) : Char :=
  if n.val < 10 then Char.ofNat ('0'.toNat + n.val)
  else Char.ofNat ('a'.toNat + (n.val - 10))

/-- Is `c` a hexadecimal digit (either case)? -/
def isHexChar (c : Char) : Bool :=
  c.isDigit || ('a' ≤ c && c ≤ 'f') || ('A' ≤ c && c ≤ 'F')

/-- Is `c` a UUID version nibble accepted by the validator? -/
def isVersionChar (c : Char) : Bool :=
  c ∈ ['1', '2', '3', '4', '5', '6', '7', '8']

/-- Is `c` a UUID variant nibble accepted by the validator? -/
def isVariantChar (c : Char) : Bool :=
  c ∈ ['8', '9', 'a', 'b', 'A', 'B']

/-- Is `c` the dash separator? -/
def isDash (c : Char) : Bool := c == '-'

/-- The character-class shape of a UUID string: 8 hex digits, dash, 4 hex
digits, dash, version nibble then 3 hex digits, dash, variant nibble then
3 hex digits, dash, 12 hex digits. -/
def uuidShape : List (Char → Bool) :=
  List.replicate 8 isHexChar ++ [isDash] ++
  List.replicate 4 isHexChar ++ [isDash] ++
  [isVersionChar] ++ List.replicate 3 isHexChar ++ [isDash] ++
  [isVariantChar] ++ List.replicate 3 isHexChar ++ [isDash] ++
  List.replicate 12 isHexChar

/-- Does each character of `cs` satisfy the corresponding class of `ps`,
with matching lengths? -/
def matchesShape : List (Char → Bool) → List Char → Bool
  | [], [] => true
  | p :: ps, c :: cs => p c && matchesShape ps cs
  | _, _ => false

/-- Modelled from the spec: the external collaborator
`isValidUUID(string) -> bool` (uuid.js delegates to the `uuid` package's
`validate`, which is not part of this repository).  A string is a valid
UUID when it has the canonical 8-4-4-4-12 hex shape with a version and a
variant nibble. -/
def isValidUUID (s : String) : Bool := matchesShape uuidShape s.data

/-- The variant nibble of a v4 UUID: the two high bits are forced to `10`,
so the nibble is `8 + (r mod 4)`. -/
def variantChar (n : Fin 16) : Char := hexChar ⟨8 + n.val % 4, by omega⟩

/-- Modelled from the spec: the external collaborator
`generateUUID() -> UUID` (uuid.js delegates to the `uuid` package's `v4`,
which is not part of this repository).  The 122 random bits are modelled
as 32 random nibbles `r`; nibble 12 is forced to the version `4` and
nibble 16 to a variant in `{8, 9, a, b}`. -/
def generateUUID (r : Fin 32 → Fin 16) : String :=
  ⟨[hexChar (r 0), hexChar (r 1), hexChar (r 2), hexChar (r 3),
    hexChar (r 4), hexChar (r 5), hexChar (r 6), hexChar (r 7), '-',
    hexChar (r 8), hexChar (r 9), hexChar (r 10), hexChar (r 11), '-',
    '4', hexChar (r 13), hexChar (r 14), hexChar (r 15), '-',
    variantChar (r 16), hexChar (r 17), hexChar (r 18), hexChar (r 19), '-',
    hexChar (r 20), hexChar (r 21), hexChar (r 22), hexChar (r 23),
    hexChar (r 24), hexChar (r 25), hexChar (r 26), hexChar (r 27),
    hexChar (r 28), hexChar (r 29), hexChar (r 30), hexChar (r 31)]⟩

/-- The SupplierId constructor (supplier-id.js lines 27-31): the value must
be a valid UUID string. -/
def SupplierId.make (v : Value) : Except ValidationError SupplierId :=
  match v with
  | .string s =>
      if isValidUUID s then .ok ⟨s⟩
      else .error ⟨"Invalid SupplierId: " ++ s⟩
  | _ => .error ⟨"Invalid SupplierId"⟩

/-- The method `SupplierId.equals` (supplier-id.js lines 54-56): true iff the argument
is itself a SupplierId with the identical UUID string. -/
def SupplierId.equalsV (a : SupplierId) (v : Value) : Bool :=
  match v with
  | .supplierIdV b => a.value == b.value
  | _ => false

/-- The factory `SupplierId.generate()` (supplier-id.js lines 62-64): construct a
SupplierId from a freshly generated UUID. -/
def SupplierId.generate (r : Fin 32 → Fin 16) : Except ValidationError SupplierId :=
  SupplierId.make (.string (generateUUID r))

/-- The ProductId constructor (product-id.js lines 110-114): the value must
be a valid UUID string. -/
def ProductId.make (v : Value) : Except ValidationError ProductId :=
  match v with
  | .string s =>
      if isValidUUID s then .ok ⟨s⟩
      else .error ⟨"Invalid ProductId format: " ++ s ++ ". Must be a valid UUID."⟩
  | _ => .error ⟨"Invalid ProductId format. Must be a valid UUID."⟩

/-- The method `ProductId.equals` (product-id.js lines 145-147): true iff the argument
is itself a ProductId with the identical UUID string. -/
def ProductId.equalsV (a : ProductId) (v : Value) : Bool :=
  match v with
  | .productIdV b => a.value == b.value
  | _ => false

/-- A character allowed in the local part and domain of the email regex
`^[^\s@]+@[^\s@]+\.[^\s@]+$`: anything but whitespace and `@`. -/
def okEmailChar (c : Char) : Bool := !c.isWhitespace && c != '@'

/-- Is there a `'.'` in `cs` that is not its last character? -/
def dotNotAtEnd : List Char → Bool
  | [] => false
  | '.' :: _ :: _ => true
  | _ :: rest => dotNotAtEnd rest

/-- Is there a `'.'` in `cs` that is neither first nor last?  This is what
`[^\s@]+\.[^\s@]+` adds beyond the character class: some dot with a
non-empty prefix and suffix around it. -/
def hasInnerDot : List Char → Bool
  | [] => false
  | _ :: rest => dotNotAtEnd rest

/-- Split a character list at its first `'@'`, if any. -/
def splitAtSign : List Char → Option (List Char × List Char)
  | [] => none
  | '@' :: rest => some ([], rest)
  | c :: rest => (splitAtSign rest).map (fun p => (c :: p.1, p.2))

/-- The function `isValidEmail` (email.js lines 50-53) on a string: the regex
`^[^\s@]+@[^\s@]+\.[^\s@]+$` matches iff the string splits at its single
`@` into a non-empty whitespace-free local part and a non-empty
whitespace-free remainder containing an inner dot. -/
def isValidEmail (s : String) : Bool :=
  match splitAtSign s.data with
  | some (l, r) =>
      !l.isEmpty && l.all okEmailChar && !r.isEmpty && r.all okEmailChar && hasInnerDot r
  | none => false

/-- The function `isValidEmail` applied to an arbitrary runtime value: the regex `test`
coerces its argument to a string, and no string rendering of a non-string
value in this universe (`"null"`, `"true"`, decimal digits, a UUID,
`"[object Object]"`) matches the email pattern. -/
def isValidEmailV : Value → Bool
  | .string s => isValidEmail s
  | _ => false

/-- A constructed Supplier's stored state (supplier.js private fields). -/
structure Supplier where
  id : SupplierId
  name : String
  contactEmail : Value
  lastOrderTotalPrice : Value
  deriving DecidableEq, Repr

/-- The Supplier constructor (supplier.js lines 182-195).  The last guard
is embedded exactly as written in the source:
`lastOrderTotalPrice !== null && (!lastOrderTotalPrice instanceof Money)`,
where `!` binds tighter than `instanceof`, so the second conjunct tests a
boolean against `Money` and is always false. -/
def Supplier.make (idv namev emailv pricev : Value) : Except ValidationError Supplier :=
  match idv with
  | .supplierIdV i =>
      match namev with
      | .string n =>
          if n.length < 2 || 100 < n.length then
            .error ⟨"name must be a string between 2 and 100 characters"⟩
          else if emailv != .null && !isValidEmailV emailv then
            .error ⟨"contactEmail must be a valid email address or null"⟩
          else if pricev != .null && isMoneyV (jsNot pricev) then
            .error ⟨"lastOrderTotalPrice must be a Money object or null"⟩
          else .ok ⟨i, n, emailv, pricev⟩
      | _ => .error ⟨"name must be a string between 2 and 100 characters"⟩
  | _ => .error ⟨"id must be a Supplier Id of SupplierId"⟩

/-- The `contactEmail` setter (supplier.js lines 226-230): rejects `null`
and anything failing the email check, assigns otherwise. -/
def Supplier.setContactEmail (s : Supplier) (v : Value) : Except ValidationError Supplier :=
  if v == .null || !isValidEmailV v then
    .error ⟨"contactEmail must be a valid email address"⟩
  else .ok { s with contactEmail := v }

/-- The `lastOrderTotalPrice` setter (supplier.js lines 245-249), embedded
exactly as written: the guard is `!value instanceof Money`, i.e.
`(!value) instanceof Money`, which tests a boolean and is always false. -/
def Supplier.setLastOrderTotalPrice (s : Supplier) (v : Value) : Except ValidationError Supplier :=
  if isMoneyV (jsNot v) then
    .error ⟨"lastOrderTotalPrice must be a Money object"⟩
  else .ok { s with lastOrderTotalPrice := v }

/-- One mutation through a Supplier setter. -/
inductive SupplierOp where
  | setEmail (v : Value)
  | setPrice (v : Value)

/-- Apply one setter call to a Supplier; a thrown ValidationError leaves
the object as it was. -/
def Supplier.applyOp (s : Supplier) : SupplierOp → Supplier
  | .setEmail v =>
      match s.setContactEmail v with
      | .ok s' => s'
      | .error _ => s
  | .setPrice v =>
      match s.setLastOrderTotalPrice v with
      | .ok s' => s'
      | .error _ => s

/-- Apply a sequence of setter calls, left to right. -/
def Supplier.applyOps (s : Supplier) : List SupplierOp → Supplier
  | [] => s
  | op :: ops => Supplier.applyOps (s.applyOp op) ops

/-- Is `v` a finite, non-negative number?  This is the condition
`Number.isFinite(x) && x >= 0` shared by the Money amount and multiplier
guards. -/
def jsFiniteNonneg : Value → Bool
  | .number (.num q) => decide (0 ≤ q)
  | _ => false

/-- A fixed valid UUID string, used for concrete instances. -/
def uuid0 : String := "550e8400-e29b-41d4-a716-446655440000"

/-- A concrete constructed Supplier, used to instantiate theorems. -/
def supplier0 : Supplier := ⟨⟨uuid0⟩, "Acme Corp", .null, .null⟩

/-! ## Helper lemmas -/

/-- Every nibble renders as a hexadecimal digit. -/
theorem isHexChar_hexChar (n : Fin 16) : isHexChar (hexChar n) = true := by
  revert n
  decide

/-- The forced variant nibble renders as an accepted variant character. -/
theorem isVariantChar_variantChar (n : Fin 16) :
    isVariantChar (variantChar n) = true := by
  revert n
  decide

/-- Every generated UUID passes the UUID validator. -/
theorem isValidUUID_generateUUID (r : Fin 32 → Fin 16) :
    isValidUUID (generateUUID r) = true := by
  simp [isValidUUID, generateUUID, uuidShape, matchesShape, List.replicate,
        isHexChar_hexChar, isVariantChar_variantChar, isDash, isVersionChar]

/-- Half-up rounding preserves non-negativity. -/
theorem round2_nonneg {q : ℚ} (h : 0 ≤ q) : 0 ≤ round2 q := by
  unfold round2
  positivity

/-- A failed Money constructor call, for any non-finite-number amount. -/
theorem money_make_notFiniteNonneg (av cv : Value) (h : jsFiniteNonneg av = false) :
    ∃ e, Money.make av cv = .error e := by
  cases av with
  | number n =>
      cases n with
      | num q =>
          simp only [jsFiniteNonneg, decide_eq_false_iff_not, not_le] at h
          simp [Money.make, h]
      | nan => exact ⟨_, rfl⟩
      | inf => exact ⟨_, rfl⟩
      | negInf => exact ⟨_, rfl⟩
  | null => exact ⟨_, rfl⟩
  | undefined => exact ⟨_, rfl⟩
  | bool b => exact ⟨_, rfl⟩
  | string s => exact ⟨_, rfl⟩
  | currencyV c => exact ⟨_, rfl⟩
  | moneyV m => exact ⟨_, rfl⟩
  | supplierIdV i => exact ⟨_, rfl⟩
  | productIdV p => exact ⟨_, rfl⟩
  | obj => exact ⟨_, rfl⟩

/-- Each single setter call, successful or not, changes nothing but its
own field. -/
theorem applyOp_frame (s : Supplier) (op : SupplierOp) :
    (s.applyOp op).id = s.id ∧ (s.applyOp op).name = s.name := by
  cases op with
  | setEmail v =>
      by_cases h : (v == Value.null || !isValidEmailV v) = true <;>
        simp [Supplier.applyOp, Supplier.setContactEmail, h]
  | setPrice v =>
      by_cases h : isMoneyV (jsNot v) = true <;>
        simp [Supplier.applyOp, Supplier.setLastOrderTotalPrice, h]

/-- A failed Money constructor call, for any finite amount with a
non-Currency second argument. -/
theorem money_make_notCurrency (q : ℚ) (cv : Value) (hc : isCurrencyV cv = false) :
    ∃ e, Money.make (.number (.num q)) cv = .error e := by
  by_cases hq : q < 0
  · exact ⟨⟨"Amount must be a positive number"⟩, by simp [Money.make, hq]⟩
  · cases cv with
    | currencyV c' => exact absurd hc (by simp [isCurrencyV])
    | null => exact ⟨⟨"Currency must be an instance of Currency"⟩, by simp [Money.make, hq]⟩
    | undefined => exact ⟨⟨"Currency must be an instance of Currency"⟩, by simp [Money.make, hq]⟩
    | bool b => exact ⟨⟨"Currency must be an instance of Currency"⟩, by simp [Money.make, hq]⟩
    | number n => exact ⟨⟨"Currency must be an instance of Currency"⟩, by simp [Money.make, hq]⟩
    | string t => exact ⟨⟨"Currency must be an instance of Currency"⟩, by simp [Money.make, hq]⟩
    | moneyV m => exact ⟨⟨"Currency must be an instance of Currency"⟩, by simp [Money.make, hq]⟩
    | supplierIdV i => exact ⟨⟨"Currency must be an instance of Currency"⟩, by simp [Money.make, hq]⟩
    | productIdV p => exact ⟨⟨"Currency must be an instance of Currency"⟩, by simp [Money.make, hq]⟩
    | obj => exact ⟨⟨"Currency must be an instance of Currency"⟩, by simp [Money.make, hq]⟩

/-! ## Claim theorems -/

/-- C1: the spec says constructing a Supplier with a non-null, non-Money
`lastOrderTotalPrice` fails with ValidationError.  The source's guard
`lastOrderTotalPrice !== null && (!lastOrderTotalPrice instanceof Money)`
tests the boolean `!lastOrderTotalPrice` against `Money` and is therefore
always false: at the failing input below (a valid id, a valid name, a null
email, and the string "42" as price) construction succeeds and stores the
string, contradicting the claim and the constructor's own documentation. -/
theorem supplier_make_accepts_nonMoney_price :
    Supplier.make (.supplierIdV ⟨uuid0⟩) (.string "Acme Corp") .null (.string "42") =
      .ok ⟨⟨uuid0⟩, "Acme Corp", .null, .string "42"⟩ := by
  rfl

/-- C2: for every value `v`, assigning `v` through the
`lastOrderTotalPrice` setter never raises — the guard `!value instanceof
Money` is always false — and the getter afterwards returns `v`. -/
theorem supplier_setLastOrderTotalPrice_total (s : Supplier) (v : Value) :
    ∃ s', s.setLastOrderTotalPrice v = .ok s' ∧ s'.lastOrderTotalPrice = v := by
  refine ⟨{ s with lastOrderTotalPrice := v }, ?_, rfl⟩
  simp [Supplier.setLastOrderTotalPrice, jsNot, isMoneyV]

/-- C3: the `contactEmail` setter rejects `null` and every string failing
the email check with ValidationError, and for every string passing the
email check the assignment succeeds and the getter returns that string. -/
theorem supplier_setContactEmail_spec (s : Supplier) (e : String) :
    (∃ err, s.setContactEmail .null = .error err) ∧
    (isValidEmail e = false → ∃ err, s.setContactEmail (.string e) = .error err) ∧
    (isValidEmail e = true →
      ∃ s', s.setContactEmail (.string e) = .ok s' ∧ s'.contactEmail = .string e) := by
  refine ⟨⟨⟨"contactEmail must be a valid email address"⟩, by
      simp [Supplier.setContactEmail]⟩,
    fun h => ⟨⟨"contactEmail must be a valid email address"⟩, by
      simp [Supplier.setContactEmail, isValidEmailV, h]⟩,
    fun h => ⟨{ s with contactEmail := .string e }, by
      simp [Supplier.setContactEmail, isValidEmailV, h], rfl⟩⟩

/-- Witness for C3 at a concrete supplier, an invalid and a valid email. -/
theorem supplier_setContactEmail_spec_witness :
    (∃ err, supplier0.setContactEmail (.string "bad-email") = .error err) ∧
    (∃ s', supplier0.setContactEmail (.string "a@b.c") = .ok s' ∧
      s'.contactEmail = .string "a@b.c") :=
  ⟨(supplier_setContactEmail_spec supplier0 "bad-email").2.1 (by decide),
   (supplier_setContactEmail_spec supplier0 "a@b.c").2.2 (by decide)⟩

/-- C4: Money construction succeeds for every finite non-negative amount
and Currency instance, storing the amount rounded to 2 decimal places, and
fails with ValidationError when the amount is negative or not finite, or
the currency argument is not a Currency instance. -/
theorem money_make_spec (q : ℚ) (c : Currency) (av cv : Value) :
    (0 ≤ q → Money.make (.number (.num q)) (.currencyV c) = .ok ⟨round2 q, c⟩) ∧
    (jsFiniteNonneg av = false → ∃ e, Money.make av cv = .error e) ∧
    (isCurrencyV cv = false → ∃ e, Money.make av cv = .error e) := by
  refine ⟨fun hq => by simp [Money.make, not_lt.mpr hq],
    money_make_notFiniteNonneg av cv, fun hc => ?_⟩
  cases av with
  | number n =>
      cases n with
      | num q' => exact money_make_notCurrency q' cv hc
      | nan => exact money_make_notFiniteNonneg _ cv rfl
      | inf => exact money_make_notFiniteNonneg _ cv rfl
      | negInf => exact money_make_notFiniteNonneg _ cv rfl
  | null => exact money_make_notFiniteNonneg _ cv rfl
  | undefined => exact money_make_notFiniteNonneg _ cv rfl
  | bool b => exact money_make_notFiniteNonneg _ cv rfl
  | string t => exact money_make_notFiniteNonneg _ cv rfl
  | currencyV c' => exact money_make_notFiniteNonneg _ cv rfl
  | moneyV m => exact money_make_notFiniteNonneg _ cv rfl
  | supplierIdV i => exact money_make_notFiniteNonneg _ cv rfl
  | productIdV p => exact money_make_notFiniteNonneg _ cv rfl
  | obj => exact money_make_notFiniteNonneg _ cv rfl

/-- Witness for C4 at amount 100 with USD, a NaN amount, and a null
currency. -/
theorem money_make_spec_witness :
    Money.make (.number (.num 100)) (.currencyV USD) = .ok ⟨round2 100, USD⟩ ∧
    (∃ e, Money.make (.number .nan) (.currencyV USD) = .error e) ∧
    (∃ e, Money.make (.number (.num 100)) .null = .error e) :=
  ⟨(money_make_spec 100 USD (.number .nan) .null).1 (by norm_num),
   (money_make_spec 100 USD (.number .nan) (.currencyV USD)).2.1 rfl,
   (money_make_spec 100 USD (.number (.num 100)) .null).2.2 rfl⟩

/-- C5: `Money.add` succeeds exactly when its argument is a Money whose
currency equals the receiver's (by the Currency equality), yielding a new
Money with the re-rounded sum and the receiver's currency, and fails with
ValidationError otherwise; operands are values, never mutated. -/
theorem money_add_spec (m o : Money) (v : Value)
    (hm : 0 ≤ m.amount) (ho : 0 ≤ o.amount) :
    (Money.add m (.moneyV o) =
      if Currency.equalsC m.currency o.currency
      then .ok ⟨round2 (m.amount + o.amount), m.currency⟩
      else .error ⟨"Can only add Money with the same currency"⟩) ∧
    (isMoneyV v = false →
      Money.add m v = .error ⟨"Can only add Money with the same currency"⟩) := by
  constructor
  · by_cases h : Currency.equalsC m.currency o.currency = true
    · simp [Money.add, h, Money.make, not_lt.mpr (add_nonneg hm ho)]
    · simp [Money.add, h]
  · intro hv
    cases v <;> simp_all [Money.add, isMoneyV]

/-- Witness for C5: 100 USD + 50 USD, 100 USD + 50 EUR, and a non-Money
argument. -/
theorem money_add_spec_witness :
    (Money.add ⟨100, USD⟩ (.moneyV ⟨50, USD⟩) =
      if Currency.equalsC USD USD
      then .ok ⟨round2 (100 + 50), USD⟩
      else .error ⟨"Can only add Money with the same currency"⟩) ∧
    (Money.add ⟨100, USD⟩ (.moneyV ⟨50, EUR⟩) =
      if Currency.equalsC USD EUR
      then .ok ⟨round2 (100 + 50), USD⟩
      else .error ⟨"Can only add Money with the same currency"⟩) ∧
    Money.add ⟨100, USD⟩ .null = .error ⟨"Can only add Money with the same currency"⟩ :=
  ⟨(money_add_spec ⟨100, USD⟩ ⟨50, USD⟩ .null (by norm_num) (by norm_num)).1,
   (money_add_spec ⟨100, USD⟩ ⟨50, EUR⟩ .null (by norm_num) (by norm_num)).1,
   (money_add_spec ⟨100, USD⟩ ⟨50, USD⟩ .null (by norm_num) (by norm_num)).2 rfl⟩

/-- C6: `Money.multiply` succeeds exactly for finite non-negative
multipliers, yielding a new Money with the re-rounded product and the same
currency; it fails with ValidationError for negative or non-finite
multipliers; multiplying 100 USD by 2 gives 200 USD, and multiplying by 0
gives amount 0. -/
theorem money_multiply_spec (m : Money) (k : ℚ) (v : Value) (hm : 0 ≤ m.amount) :
    (0 ≤ k →
      Money.multiply m (.number (.num k)) = .ok ⟨round2 (m.amount * k), m.currency⟩) ∧
    (jsFiniteNonneg v = false → ∃ e, Money.multiply m v = .error e) ∧
    Money.multiply m (.number (.num 0)) = .ok ⟨0, m.currency⟩ ∧
    Money.multiply ⟨100, USD⟩ (.number (.num 2)) = .ok ⟨200, USD⟩ := by
  refine ⟨fun hk => by
      simp [Money.multiply, not_lt.mpr hk, Money.make,
            not_lt.mpr (mul_nonneg hm hk)], ?_, ?_, ?_⟩
  · intro hv
    cases v with
    | number n =>
        cases n with
        | num k' =>
            simp only [jsFiniteNonneg, decide_eq_false_iff_not, not_le] at hv
            exact ⟨⟨"Multiplier must be a positive number"⟩, by simp [Money.multiply, hv]⟩
        | nan => exact ⟨_, rfl⟩
        | inf => exact ⟨_, rfl⟩
        | negInf => exact ⟨_, rfl⟩
    | null => exact ⟨_, rfl⟩
    | undefined => exact ⟨_, rfl⟩
    | bool b => exact ⟨_, rfl⟩
    | string t => exact ⟨_, rfl⟩
    | currencyV c => exact ⟨_, rfl⟩
    | moneyV m' => exact ⟨_, rfl⟩
    | supplierIdV i => exact ⟨_, rfl⟩
    | productIdV p => exact ⟨_, rfl⟩
    | obj => exact ⟨_, rfl⟩
  · have h0 : round2 (0 : ℚ) = 0 := by norm_num [round2]
    simp [Money.multiply, Money.make, not_lt.mpr (mul_nonneg hm le_rfl), h0]
  · have h2 : round2 ((100 : ℚ) * 2) = 200 := by norm_num [round2]
    simp [Money.multiply, Money.make, h2]
    norm_num

/-- Witness for C6: multiply 100 USD by 2 and by -1. -/
theorem money_multiply_spec_witness :
    Money.multiply ⟨100, USD⟩ (.number (.num 2)) = .ok ⟨round2 (100 * 2), USD⟩ ∧
    (∃ e, Money.multiply ⟨100, USD⟩ (.number (.num (-1))) = .error e) :=
  ⟨(money_multiply_spec ⟨100, USD⟩ 2 (.number (.num (-1))) (by norm_num)).1 (by norm_num),
   (money_multiply_spec ⟨100, USD⟩ 2 (.number (.num (-1))) (by norm_num)).2.1 (by decide)⟩

/-- C7: Currency construction succeeds for each code in the enumerated set
{USD, EUR, GBP, JPY}, storing that code, and fails with ValidationError
for every other string. -/
theorem currency_make_spec (s : String) :
    (s ∈ Currency.VALID_CODES → Currency.make (.string s) = .ok ⟨s⟩) ∧
    (s ∉ Currency.VALID_CODES →
      Currency.make (.string s) = .error ⟨"Invalid currency code: " ++ s⟩) := by
  constructor
  · intro h
    simp [Currency.make, h]
  · intro h
    simp [Currency.make, h]

/-- Witness for C7 at the code "USD" and the invalid code "XXX". -/
theorem currency_make_spec_witness :
    Currency.make (.string "USD") = .ok ⟨"USD"⟩ ∧
    Currency.make (.string "XXX") = .error ⟨"Invalid currency code: " ++ "XXX"⟩ :=
  ⟨(currency_make_spec "USD").1 (by decide),
   (currency_make_spec "XXX").2 (by decide)⟩

/-- C8: for every UUID string accepted by both constructors, the two
constructed identifiers are never equal across types, in either
direction. -/
theorem id_cross_type_equals_false (u : String) (h : isValidUUID u = true) :
    ∃ (s : SupplierId) (p : ProductId),
      SupplierId.make (.string u) = .ok s ∧ ProductId.make (.string u) = .ok p ∧
      SupplierId.equalsV s (.productIdV p) = false ∧
      ProductId.equalsV p (.supplierIdV s) = false :=
  ⟨⟨u⟩, ⟨u⟩, by simp [SupplierId.make, h], by simp [ProductId.make, h], rfl, rfl⟩

/-- Witness for C8 at a concrete UUID string. -/
theorem id_cross_type_equals_false_witness :
    ∃ (s : SupplierId) (p : ProductId),
      SupplierId.make (.string "550e8400-e29b-41d4-a716-446655440000") = .ok s ∧
      ProductId.make (.string "550e8400-e29b-41d4-a716-446655440000") = .ok p ∧
      SupplierId.equalsV s (.productIdV p) = false ∧
      ProductId.equalsV p (.supplierIdV s) = false :=
  id_cross_type_equals_false "550e8400-e29b-41d4-a716-446655440000" (by decide)

/-- C9: for every choice of random nibbles, `SupplierId.generate` succeeds
and yields an identifier whose value is accepted again by the SupplierId
constructor, reproducing the same identifier. -/
theorem supplierId_generate_roundtrip (r : Fin 32 → Fin 16) :
    ∃ i : SupplierId, SupplierId.generate r = .ok i ∧
      SupplierId.make (.string i.value) = .ok i :=
  ⟨⟨generateUUID r⟩,
   by simp [SupplierId.generate, SupplierId.make, isValidUUID_generateUUID r],
   by simp [SupplierId.make, isValidUUID_generateUUID r]⟩

/-- C10: each Supplier setter call — successful or failing — touches only
its own field, and a supplier's id and name survive any sequence of setter
calls unchanged, there being no mutator for them. -/
theorem supplier_setters_frame (s : Supplier) (v : Value) (ops : List SupplierOp) :
    ((s.applyOp (.setEmail v)).id = s.id ∧ (s.applyOp (.setEmail v)).name = s.name ∧
      (s.applyOp (.setEmail v)).lastOrderTotalPrice = s.lastOrderTotalPrice) ∧
    ((s.applyOp (.setPrice v)).id = s.id ∧ (s.applyOp (.setPrice v)).name = s.name ∧
      (s.applyOp (.setPrice v)).contactEmail = s.contactEmail) ∧
    (Supplier.applyOps s ops).id = s.id ∧ (Supplier.applyOps s ops).name = s.name := by
  refine ⟨?_, ?_, ?_⟩
  · by_cases h : (v == Value.null || !isValidEmailV v) = true <;>
      simp [Supplier.applyOp, Supplier.setContactEmail, h]
  · by_cases h : isMoneyV (jsNot v) = true <;>
      simp [Supplier.applyOp, Supplier.setLastOrderTotalPrice, h]
  · induction ops generalizing s with
    | nil => exact ⟨rfl, rfl⟩
    | cons op ops ih =>
        simp only [Supplier.applyOps]
        exact ⟨((ih (s.applyOp op)).1).trans (applyOp_frame s op).1,
               ((ih (s.applyOp op)).2).trans (applyOp_frame s op).2⟩

end SupplyChain
